import Mathlib

/-!
# Verification of the Chirp social backend (engagement-and-fan-out subsystem)

A shallow embedding of the Express/Mongoose controllers of the Chirp
micro-blogging backend, together with proofs about the embedded operations.

Modelled source files:
* `src/models/Tweet.js` (schema validation, pre-save hashtag extraction)
* `src/models/Trending.js`, notification model
* `src/controllers/userController.js` (followUser, unfollowUser, createTweet,
  likeTweet, retweetTweet, replyToTweet, deleteTweet)

Modelling conventions:
* Mongo ObjectIds are `Nat`; `toString()` comparison of two ids is `Nat`
  equality.
* A handler body `try { ... } catch (error) { next(error) }` is a pure
  function `DB → DB × Except ApiError α`: `await` steps that committed before
  a throw stay committed in the returned database, and the thrown error is
  surfaced as `Except.error` (what the error middleware turns into a 5xx/4xx
  response for the caller).
* External collaborators that can fail (Notification.create, the Trending
  upsert, Cloudinary upload/destroy) are driven by an `Effects` record: a
  `false` flag makes every call of that collaborator throw, a `true` flag
  makes it succeed.  This is how "a secondary side effect fails" is expressed.
* Mongoose `Document.save()` runs schema validation and then the user
  `pre('save')` hook before persisting; `Model.create` is build-then-save.
  Mongoose `required: true` on a String path rejects the empty string, and
  the `trim: true` setter runs before validation.
-/

namespace Chirp

/-- Kinds of notification, from the notification schema's
`enum: ['like', 'retweet', 'follow', 'reply', 'mention']`. -/
inductive NotifType where
  | like | retweet | follow | reply | mention
deriving Repr, DecidableEq

/-- A `User` document: `_id`, `username`, and the two follow sets
(`followers`, `following`) of `src/models/User.js` that the controllers use. -/
structure UserDoc where
  id : Nat
  username : String
  followers : List Nat := []
  following : List Nat := []
deriving Repr, DecidableEq

/-- A `Tweet` document, after `src/models/Tweet.js` (`tweetSchema`). -/
structure TweetDoc where
  id : Nat
  text : String
  author : Nat
  imageUrl : Option String := none
  likes : List Nat := []
  retweets : List Nat := []
  replies : List Nat := []
  parentTweet : Option Nat := none
  isRetweet : Bool := false
  isReply : Bool := false
  originalTweet : Option Nat := none
  hashtags : List String := []
  mentions : List Nat := []
deriving Repr, DecidableEq

/-- A `Notification` document, after `notificationSchema`. -/
structure NotificationDoc where
  recipient : Nat
  sender : Nat
  type : NotifType
  tweet : Option Nat := none
  read : Bool := false
deriving Repr, DecidableEq

/-- A `Trending` document, after `src/models/Trending.js` (`trendingSchema`):
unique `tag`, running `count`, `category` (default `'Trending'`), contributing
`tweets`. -/
structure TrendingDoc where
  tag : String
  count : Nat := 1
  category : String := "Trending"
  tweets : List Nat := []
deriving Repr, DecidableEq

/-- The whole persistent state: the four Mongo collections plus a fresh-id
counter standing for ObjectId generation. -/
structure DB where
  users : List UserDoc := []
  tweets : List TweetDoc := []
  notifications : List NotificationDoc := []
  trending : List TrendingDoc := []
  nextId : Nat := 0
deriving Repr, DecidableEq

/-- Whether each fallible external collaborator succeeds on this request:
`Notification.create`, the `Trending.findOneAndUpdate` upsert, and the
Cloudinary image store (`upload` / `destroy`). -/
structure Effects where
  notifOk : Bool := true
  trendingOk : Bool := true
  cloudinaryOk : Bool := true
deriving Repr, DecidableEq

/-- What the caller observes on failure: either an explicit
`res.status(code).json({message})` early return, or a thrown exception that
`next(error)` hands to the error middleware. -/
inductive ApiError where
  | status (code : Nat) (message : String)
  | internal (message : String)
deriving Repr, DecidableEq

/-! ## Generic list-collection helpers (Mongo primitive modelling) -/

/-- Update the first element satisfying `p` (a Mongo single-document update:
`Document.save`, `findByIdAndUpdate`). No-op when nothing matches. -/
def updateBy (p : α → Bool) (f : α → α) : List α → List α
  | [] => []
  | x :: rest => if p x then f x :: rest else x :: updateBy p f rest

/-- Remove the first element satisfying `p` (Mongo `deleteOne`, or a
document's `remove()`). No-op when nothing matches. -/
def deleteFirst (p : α → Bool) : List α → List α
  | [] => []
  | x :: rest => if p x then rest else x :: deleteFirst p rest

/-- `User.findById` -/
def findUser (id : Nat) (us : List UserDoc) : Option UserDoc :=
  us.find? (fun u => u.id == id)

/-- first-match update of the user document with the given `_id` -/
def updateUser (id : Nat) (f : UserDoc → UserDoc) (us : List UserDoc) :
    List UserDoc :=
  updateBy (fun u => u.id == id) f us

/-- `Tweet.findById` -/
def findTweet (id : Nat) (ts : List TweetDoc) : Option TweetDoc :=
  ts.find? (fun t => t.id == id)

/-- first-match update of the tweet document with the given `_id` -/
def updateTweet (id : Nat) (f : TweetDoc → TweetDoc) (ts : List TweetDoc) :
    List TweetDoc :=
  updateBy (fun t => t.id == id) f ts

/-! ## Tweet schema: validation and the pre-save hook -/

/-- JS `\w` without the unicode flag: `[A-Za-z0-9_]` (ASCII only, which is
also the range of `Char.isAlphanum`). -/
def isWordChar (c : Char) : Bool := c.isAlphanum || c = '_'

/-- One pass of the global-regex loop `while ((m = /MARKER(\w+)/g.exec(s)))`:
the scanner is either between matches (`acc = none`), has just consumed the
marker (`acc = some []`), or is extending the current greedy `\w+` capture
(`acc = some (c :: _)`, reversed). A capture is emitted only when non-empty,
and the scan resumes right after it — exactly the `lastIndex` behaviour of a
sticky global regex. -/
def scanAux (marker : Char) : Option (List Char) → List Char → List String
  | none, [] => []
  | some acc, [] => if acc.isEmpty then [] else [String.mk acc.reverse]
  | none, c :: rest =>
      scanAux marker (if c = marker then some [] else none) rest
  | some acc, c :: rest =>
      if isWordChar c then scanAux marker (some (c :: acc)) rest
      else
        let tail := scanAux marker (if c = marker then some [] else none) rest
        if acc.isEmpty then tail else String.mk acc.reverse :: tail

/-- All captures of `/MARKER(\w+)/g` over `s`, in order. -/
def scanCaptures (marker : Char) (s : String) : List String :=
  scanAux marker none s.data

/-- `[...new Set(l)]`: de-duplicate keeping the first occurrence, in order. -/
def dedupeAux (seen : List String) : List String → List String
  | [] => []
  | x :: rest =>
      if seen.contains x then dedupeAux seen rest
      else x :: dedupeAux (x :: seen) rest

/-- insertion-ordered de-duplication -/
def dedupe (l : List String) : List String := dedupeAux [] l

/-- JS `toLowerCase()` (character-list implementation, so that it computes;
capture groups of `\w+` are ASCII, where the two agree). -/
def jsToLower (s : String) : String := String.mk (s.data.map Char.toLower)

/-- The `tweetSchema.pre('save')` hook: captures of `/#(\w+)/g` over
`this.text`, lower-cased, de-duplicated. -/
def extractHashtags (text : String) : List String :=
  dedupe ((scanCaptures '#' text).map jsToLower)

/-- The mention scan of `createTweet`: captures of `/@(\w+)/g`
(no lower-casing). -/
def extractMentions (text : String) : List String :=
  scanCaptures '@' text

/-- the JS `String.prototype.trim` (and equally the mongoose `trim: true`
setter): strip leading and trailing whitespace -/
def trimChars (l : List Char) : List Char :=
  ((l.dropWhile Char.isWhitespace).reverse.dropWhile Char.isWhitespace).reverse

/-- `trim` on strings (character-list implementation, so that it computes) -/
def jsTrim (s : String) : String := String.mk (trimChars s.data)

/-- Mongoose validation of `tweetSchema.text`: the `trim: true` setter runs
first; `required: true` rejects an empty (String) value; `maxlength: 280`
rejects longer text. Returns the failing validator's message, if any. -/
def tweetTextError (text : String) : Option String :=
  let t := jsTrim text
  if t.length = 0 then some "Tweet text is required"
  else if 280 < t.length then some "Tweet cannot be more than 280 characters"
  else none

/-- The document as persisted by `save`: the `trim` setter applied to `text`,
then the `pre('save')` hook refreshing `hashtags`. -/
def preSave (t : TweetDoc) : TweetDoc :=
  { t with text := jsTrim t.text, hashtags := extractHashtags (jsTrim t.text) }

/-- `Document.save()` on a tweet: validate, run the pre-save hook, persist
over the stored document with the same `_id`. A validation failure is a
thrown `ValidationError`. -/
def saveTweet (t : TweetDoc) (db : DB) : Except ApiError DB :=
  match tweetTextError t.text with
  | some m => .error (.internal m)
  | none =>
      .ok { db with tweets := updateTweet t.id (fun _ => preSave t) db.tweets }

/-- `Tweet.create doc`: build with a fresh `_id`, then save (validate +
pre-save hook + insert). Returns the created document alongside the new
state. -/
def insertTweet (t : TweetDoc) (db : DB) : Except ApiError (TweetDoc × DB) :=
  match tweetTextError t.text with
  | some m => .error (.internal m)
  | none =>
      let doc := preSave { t with id := db.nextId }
      .ok (doc, { db with tweets := db.tweets ++ [doc], nextId := db.nextId + 1 })

/-- `Notification.create`: appends the document, or throws when the
collaborator is down. -/
def insertNotification (eff : Effects) (n : NotificationDoc) (db : DB) :
    Except ApiError DB :=
  if eff.notifOk then .ok { db with notifications := db.notifications ++ [n] }
  else .error (.internal "Notification.create failed")

/-- `Trending.findOneAndUpdate({tag}, {$inc: {count: 1}, $push: {tweets: id}},
{upsert: true})`: increment-and-append on the (unique) document with this tag,
or insert `{tag, count: 1, tweets: [id]}` (plus the `category` default) when
absent. -/
def trendingUpsert (tag : String) (tweetId : Nat) :
    List TrendingDoc → List TrendingDoc
  | [] => [{ tag := tag, count := 1, category := "Trending", tweets := [tweetId] }]
  | d :: rest =>
      if d.tag == tag then
        { d with count := d.count + 1, tweets := d.tweets ++ [tweetId] } :: rest
      else d :: trendingUpsert tag tweetId rest

/-- JS truthiness of the optional request field `text`: `undefined` and
`''` are falsy. -/
def falsyText : Option String → Bool
  | none => true
  | some s => s = ""

/-- JS `text || ''` -/
def textOrEmpty : Option String → String
  | none => ""
  | some s => s

/-- JS string coercion of the raw `text` variable (`RegExp.exec` coerces
`undefined` to the string `"undefined"`). -/
def jsString : Option String → String
  | none => "undefined"
  | some s => s

/-! ## Controllers (`src/controllers/userController.js`) -/

/-- `followUser` (POST `/api/users/:id/follow`): `actorId` is `req.user._id`,
`targetId` is `req.params.id`. Two separate saves (target's `followers`, then
actor's `following`), then `Notification.create`. -/
def followUser (eff : Effects) (actorId targetId : Nat) (db : DB) :
    DB × Except ApiError String :=
  match findUser targetId db.users with
  | none => (db, .error (.status 404 "User not found"))
  | some userToFollow =>
    if actorId = targetId then
      (db, .error (.status 400 "You cannot follow yourself"))
    else if actorId ∈ userToFollow.followers then
      (db, .error (.status 400 "You are already following this user"))
    else
      let db1 := { db with users := (updateUser targetId
        (fun u => { u with followers := u.followers ++ [actorId] }) db.users) }
      match findUser actorId db1.users with
      | none => (db1, .error (.internal "TypeError: currentUser is null"))
      | some _ =>
        let db2 := { db1 with users := (updateUser actorId
          (fun u => { u with following := u.following ++ [targetId] }) db1.users) }
        match insertNotification eff
            { recipient := targetId, sender := actorId, type := .follow } db2 with
        | .error e => (db2, .error e)
        | .ok db3 => (db3, .ok "User followed successfully")

/-- `unfollowUser` (POST `/api/users/:id/unfollow`): removes both sides of the
edge with two separate filtered saves; no notification. -/
def unfollowUser (actorId targetId : Nat) (db : DB) :
    DB × Except ApiError String :=
  match findUser targetId db.users with
  | none => (db, .error (.status 404 "User not found"))
  | some userToUnfollow =>
    if actorId = targetId then
      (db, .error (.status 400 "You cannot unfollow yourself"))
    else if actorId ∉ userToUnfollow.followers then
      (db, .error (.status 400 "You are not following this user"))
    else
      let db1 := { db with users := (updateUser targetId
        (fun u => { u with followers := u.followers.filter (fun x => x != actorId) }) db.users) }
      match findUser actorId db1.users with
      | none => (db1, .error (.internal "TypeError: currentUser is null"))
      | some _ =>
        let db2 := { db1 with users := (updateUser actorId
          (fun u => { u with following := u.following.filter (fun x => x != targetId) }) db1.users) }
        (db2, .ok "User unfollowed successfully")

/-- The body of a POST `/api/tweets` request: optional `text`, optional
uploaded image (`req.file`). -/
structure CreateTweetReq where
  text : Option String := none
  file : Bool := false
deriving Repr, DecidableEq

/-- `cloudinary.uploader.upload(req.file.path)`: the stored image URL, or a
thrown upstream error. -/
def cloudinaryUpload (eff : Effects) : Except ApiError String :=
  if eff.cloudinaryOk then .ok "https://res.cloudinary.com/image"
  else .error (.internal "Cloudinary upload failed")

/-- `createTweet` (POST `/api/tweets`): reject when `!text && !req.file`;
upload the image if any; `Tweet.create`; upsert each extracted hashtag into
Trending; create one `mention` notification per resolved mentioned user other
than the author. All `await`s live in the handler's single try/catch. -/
def createTweet (eff : Effects) (userId : Nat) (req : CreateTweetReq) (db : DB) :
    DB × Except ApiError TweetDoc :=
  if falsyText req.text && !req.file then
    (db, .error (.status 400 "Tweet text or image is required"))
  else
    match (if req.file then (cloudinaryUpload eff).map some else .ok none) with
    | .error e => (db, .error e)
    | .ok imageUrl =>
      match insertTweet { id := 0, text := textOrEmpty req.text,
                          author := userId, imageUrl := imageUrl } db with
      | .error e => (db, .error e)
      | .ok (tweet, db1) =>
        if !tweet.hashtags.isEmpty && !eff.trendingOk then
          (db1, .error (.internal "Trending.findOneAndUpdate failed"))
        else
          let db2 := { db1 with trending := (tweet.hashtags.foldl
            (fun tr tag => trendingUpsert tag tweet.id tr) db1.trending) }
          let mentionedUsernames := extractMentions (jsString req.text)
          let mentionedUsers :=
            db2.users.filter (fun u => mentionedUsernames.contains u.username)
          let ns := (mentionedUsers.filter (fun u => u.id != userId)).map
            (fun u => ({ recipient := u.id, sender := userId, type := .mention,
                           tweet := some tweet.id } : NotificationDoc))
          if !ns.isEmpty && !eff.notifOk then
            (db2, .error (.internal "Notification.create failed"))
          else
            ({ db2 with notifications := db2.notifications ++ ns }, .ok tweet)

/-- response of `likeTweet` -/
structure LikeResp where
  message : String
  likes : Nat
  isLiked : Bool
deriving Repr, DecidableEq

/-- `likeTweet` (POST `/api/tweets/:id/like`): toggle membership of the actor
in `tweet.likes`; on the add transition, `Notification.create` (skipped for
the author's own tweet) runs BEFORE `tweet.save()`. -/
def likeTweet (eff : Effects) (userId tweetId : Nat) (db : DB) :
    DB × Except ApiError LikeResp :=
  match findTweet tweetId db.tweets with
  | none => (db, .error (.status 404 "Tweet not found"))
  | some tweet =>
    if userId ∈ tweet.likes then
      let tweet1 := { tweet with likes := tweet.likes.filter (fun x => x != userId) }
      match saveTweet tweet1 db with
      | .error e => (db, .error e)
      | .ok db1 =>
          (db1, .ok { message := "Tweet unliked", likes := tweet1.likes.length,
                      isLiked := false })
    else
      let tweet1 := { tweet with likes := tweet.likes ++ [userId] }
      match (if tweet.author ≠ userId then
               insertNotification eff { recipient := tweet.author, sender := userId,
                                        type := .like, tweet := some tweet.id } db
             else .ok db) with
      | .error e => (db, .error e)
      | .ok db1 =>
        match saveTweet tweet1 db1 with
        | .error e => (db1, .error e)
        | .ok db2 =>
            (db2, .ok { message := "Tweet liked", likes := tweet1.likes.length,
                        isLiked := true })

/-- response of `retweetTweet` -/
structure RetweetResp where
  message : String
  retweets : Nat
  isRetweeted : Bool
deriving Repr, DecidableEq

/-- The filter of `Tweet.deleteOne` in the un-retweet branch:
`{isRetweet: true, originalTweet: tweet._id, author: req.user._id}`. -/
def isRetweetShell (originalId authorId : Nat) (t : TweetDoc) : Bool :=
  t.isRetweet && t.originalTweet == some originalId && t.author == authorId

/-- `retweetTweet` (POST `/api/tweets/:id/retweet`): toggle membership of the
actor in `tweet.retweets`; the add transition creates a retweet-shell
`Tweet` (copying the text) and a notification (skipped for one's own tweet);
the remove transition `deleteOne`s the shell. `tweet.save()` runs last in
both branches. -/
def retweetTweet (eff : Effects) (userId tweetId : Nat) (db : DB) :
    DB × Except ApiError RetweetResp :=
  match findTweet tweetId db.tweets with
  | none => (db, .error (.status 404 "Tweet not found"))
  | some tweet =>
    if userId ∈ tweet.retweets then
      let tweet1 := { tweet with retweets := tweet.retweets.filter (fun x => x != userId) }
      let db1 := { db with tweets := deleteFirst (isRetweetShell tweet.id userId) db.tweets }
      match saveTweet tweet1 db1 with
      | .error e => (db1, .error e)
      | .ok db2 =>
          (db2, .ok { message := "Retweet undone", retweets := tweet1.retweets.length,
                      isRetweeted := false })
    else
      let tweet1 := { tweet with retweets := tweet.retweets ++ [userId] }
      match insertTweet { id := 0, author := userId, isRetweet := true,
                          originalTweet := some tweet.id, text := tweet.text } db with
      | .error e => (db, .error e)
      | .ok (_, db1) =>
        match (if tweet.author ≠ userId then
                 insertNotification eff { recipient := tweet.author, sender := userId,
                                          type := .retweet, tweet := some tweet.id } db1
               else .ok db1) with
        | .error e => (db1, .error e)
        | .ok db2 =>
          match saveTweet tweet1 db2 with
          | .error e => (db2, .error e)
          | .ok db3 =>
              (db3, .ok { message := "Tweet retweeted",
                          retweets := tweet1.retweets.length, isRetweeted := true })

/-- `replyToTweet` (POST `/api/tweets/:id/reply`): reject falsy `text` before
any lookup; create the reply `Tweet` (`isReply`, `parentTweet`); push its id
onto the parent's `replies` and save the parent; notification (skipped for
one's own tweet) last. -/
def replyToTweet (eff : Effects) (userId tweetId : Nat) (text : Option String)
    (db : DB) : DB × Except ApiError TweetDoc :=
  if falsyText text then
    (db, .error (.status 400 "Reply text is required"))
  else
    match findTweet tweetId db.tweets with
    | none => (db, .error (.status 404 "Tweet not found"))
    | some parentTweet =>
      match insertTweet { id := 0, text := textOrEmpty text, author := userId,
                          isReply := true, parentTweet := some parentTweet.id } db with
      | .error e => (db, .error e)
      | .ok (replyTweet, db1) =>
        let parent1 := { parentTweet with replies := parentTweet.replies ++ [replyTweet.id] }
        match saveTweet parent1 db1 with
        | .error e => (db1, .error e)
        | .ok db2 =>
          match (if parentTweet.author ≠ userId then
                   insertNotification eff { recipient := parentTweet.author,
                                            sender := userId, type := .reply,
                                            tweet := some parentTweet.id } db2
                 else .ok db2) with
          | .error e => (db2, .error e)
          | .ok db3 => (db3, .ok replyTweet)

/-- `deleteTweet` (DELETE `/api/tweets/:id`): 404 when absent, 403 when the
actor is not the author (before any mutation); Cloudinary destroy for image
posts (before any mutation); `$pull` the id from the parent's `replies` for a
reply; `$pull` the actor from the original's `retweets` for a retweet-shell;
`deleteMany` the notifications referencing the tweet; remove the tweet. -/
def deleteTweet (eff : Effects) (userId tweetId : Nat) (db : DB) :
    DB × Except ApiError String :=
  match findTweet tweetId db.tweets with
  | none => (db, .error (.status 404 "Tweet not found"))
  | some tweet =>
    if tweet.author ≠ userId then
      (db, .error (.status 403 "Not authorized to delete this tweet"))
    else
      match (if tweet.imageUrl.isSome && !eff.cloudinaryOk then
               Except.error (ApiError.internal "Cloudinary destroy failed")
             else Except.ok ()) with
      | .error e => (db, .error e)
      | .ok _ =>
        let db1 :=
          if tweet.isReply then
            match tweet.parentTweet with
            | some pid => { db with tweets := (updateTweet pid
                (fun p => { p with replies := p.replies.filter (fun x => x != tweet.id) })
                db.tweets) }
            | none => db
          else db
        let db2 :=
          if tweet.isRetweet then
            match tweet.originalTweet with
            | some oid => { db1 with tweets := (updateTweet oid
                (fun p => { p with retweets := p.retweets.filter (fun x => x != userId) })
                db1.tweets) }
            | none => db1
          else db1
        let db3 := { db2 with notifications :=
          (db2.notifications.filter (fun n => n.tweet != some tweet.id)) }
        let db4 := { db3 with tweets :=
          (deleteFirst (fun t => t.id == tweet.id) db3.tweets) }
        (db4, .ok "Tweet deleted successfully")

/-! ## Derived queries and concrete fixtures -/

/-- `Trending.findOne({tag})` -/
def findTag (tag : String) (tr : List TrendingDoc) : Option TrendingDoc :=
  tr.find? (fun d => d.tag == tag)

/-- the stored `count` of a tag (0 when the topic does not exist yet) -/
def tagCount (tag : String) (tr : List TrendingDoc) : Nat :=
  (findTag tag tr).elim 0 TrendingDoc.count

/-- the stored contributing-post list of a tag -/
def tagTweets (tag : String) (tr : List TrendingDoc) : List Nat :=
  (findTag tag tr).elim [] TrendingDoc.tweets

/-- number of retweet-shell posts of `originalId` by `authorId` in the
collection -/
def retweetShellCount (originalId authorId : Nat) (ts : List TweetDoc) : Nat :=
  ts.countP (isRetweetShell originalId authorId)

/-- a stored post is well-formed when mongoose has already applied the `trim`
setter to its text and the text passes the schema validators (true of every
document written through `Tweet.create` / `save`) -/
def storedTextOk (t : TweetDoc) : Prop :=
  jsTrim t.text = t.text ∧ tweetTextError t.text = none

instance (t : TweetDoc) : Decidable (storedTextOk t) :=
  inferInstanceAs (Decidable (_ ∧ _))

/-- two-account fixture: alice (id 1) and bob (id 2) -/
def exUsers : List UserDoc :=
  [{ id := 1, username := "alice" }, { id := 2, username := "bob" }]

/-- one stored post by alice -/
def exTweet : TweetDoc := { id := 10, text := "Hello #world", author := 1 }

/-- concrete database: alice, bob, and alice's post -/
def exDB : DB :=
  { users := exUsers, tweets := [exTweet], notifications := [], trending := [],
    nextId := 11 }

/-- all external collaborators healthy -/
def effAll : Effects := {}

/-- the notification store is down; everything else healthy -/
def effNoNotif : Effects := { notifOk := false }

/-- every external collaborator is down -/
def effDown : Effects :=
  { notifOk := false, trendingOk := false, cloudinaryOk := false }

/-- an image post stored by alice -/
def exImageTweet : TweetDoc :=
  { id := 20, text := "pic of the day", author := 1,
    imageUrl := some "https://res.cloudinary.com/pic.jpg" }

/-- concrete database with alice's plain post and her image post -/
def exDB2 : DB :=
  { users := exUsers, tweets := [exTweet, exImageTweet], notifications := [],
    trending := [], nextId := 21 }

/-! ## Lemmas about the collection primitives -/

theorem length_updateBy (p : α → Bool) (f : α → α) (l : List α) :
    (updateBy p f l).length = l.length := by
  induction l with
  | nil => rfl
  | cons x rest ih =>
    cases hpx : p x <;> simp [updateBy, hpx, ih]

theorem mem_updateBy (p : α → Bool) (f : α → α) (l : List α) (x : α)
    (hx : x ∈ updateBy p f l) : x ∈ l ∨ ∃ y ∈ l, x = f y := by
  induction l with
  | nil => simp [updateBy] at hx
  | cons a rest ih =>
    cases hpa : p a with
    | true =>
      rcases List.mem_cons.mp (by simpa [updateBy, hpa] using hx) with h1 | h1
      · exact Or.inr ⟨a, List.mem_cons_self a rest, h1⟩
      · exact Or.inl (List.mem_cons_of_mem a h1)
    | false =>
      rcases List.mem_cons.mp (by simpa [updateBy, hpa] using hx) with h1 | h1
      · exact Or.inl (h1 ▸ List.mem_cons_self a rest)
      · rcases ih h1 with h2 | ⟨y, hy, h3⟩
        · exact Or.inl (List.mem_cons_of_mem a h2)
        · exact Or.inr ⟨y, List.mem_cons_of_mem a hy, h3⟩

theorem countP_updateBy_congr (p q : α → Bool) (f : α → α) (l : List α)
    (h : ∀ x ∈ l, p x = true → q (f x) = q x) :
    (updateBy p f l).countP q = l.countP q := by
  induction l with
  | nil => rfl
  | cons a rest ih =>
    cases hpa : p a with
    | true =>
      have hq := h a (List.mem_cons_self a rest) hpa
      simp [updateBy, hpa, List.countP_cons, hq]
    | false =>
      have ih2 := ih (fun x hx hpx => h x (List.mem_cons_of_mem a hx) hpx)
      simp [updateBy, hpa, List.countP_cons, ih2]

theorem countP_deleteFirst (p : α → Bool) (l : List α) :
    (deleteFirst p l).countP p = l.countP p - 1 := by
  induction l with
  | nil => rfl
  | cons a rest ih =>
    cases hpa : p a with
    | true => simp [deleteFirst, hpa, List.countP_cons]
    | false => simp [deleteFirst, hpa, List.countP_cons, ih]

theorem length_deleteFirst_of_pos (p : α → Bool) (l : List α)
    (h : l.countP p ≠ 0) : (deleteFirst p l).length + 1 = l.length := by
  induction l with
  | nil => simp [List.countP_nil] at h
  | cons a rest ih =>
    cases hpa : p a with
    | true => simp [deleteFirst, hpa]
    | false =>
      have h2 : rest.countP p ≠ 0 := by
        simpa [List.countP_cons, hpa] using h
      simp [deleteFirst, hpa, ih h2]

theorem mem_deleteFirst (p : α → Bool) (l : List α) (x : α)
    (hx : x ∈ deleteFirst p l) : x ∈ l := by
  induction l with
  | nil => simp [deleteFirst] at hx
  | cons a rest ih =>
    cases hpa : p a with
    | true =>
      exact List.mem_cons_of_mem a (by simpa [deleteFirst, hpa] using hx)
    | false =>
      rcases List.mem_cons.mp (by simpa [deleteFirst, hpa] using hx) with h1 | h1
      · exact h1 ▸ List.mem_cons_self a rest
      · exact List.mem_cons_of_mem a (ih h1)

theorem find?_deleteFirst_of_disjoint (p q : α → Bool) (l : List α)
    (h : ∀ x ∈ l, q x = true → p x = false) :
    (deleteFirst q l).find? p = l.find? p := by
  induction l with
  | nil => rfl
  | cons a rest ih =>
    cases hqa : q a with
    | true =>
      have hpa := h a (List.mem_cons_self a rest) hqa
      rw [List.find?_cons_of_neg rest (by simp [hpa])]
      simp [deleteFirst, hqa]
    | false =>
      have ih2 := ih (fun x hx hqx => h x (List.mem_cons_of_mem a hx) hqx)
      cases hpa : p a with
      | true =>
        simp [deleteFirst, hqa, List.find?_cons_of_pos _ hpa]
      | false =>
        simp [deleteFirst, hqa,
          List.find?_cons_of_neg _ (by simp [hpa] : ¬ p a = true), ih2]

theorem find?_updateBy_key (key : α → Nat) (i j : Nat) (f : α → α)
    (hf : ∀ x, key x = j → key (f x) = j) (l : List α) :
    (updateBy (fun x => key x == j) f l).find? (fun x => key x == i) =
      if j = i then (l.find? (fun x => key x == i)).map f
      else l.find? (fun x => key x == i) := by
  induction l with
  | nil => by_cases h : j = i <;> simp [updateBy, h]
  | cons a rest ih =>
    by_cases haj : key a = j
    · have h1 : ((fun x => key x == j) a) = true := by simp [haj]
      have hupd : updateBy (fun x => key x == j) f (a :: rest) = f a :: rest := by
        simp [updateBy, h1]
      rw [hupd]
      by_cases hji : j = i
      · subst hji
        rw [if_pos rfl,
          List.find?_cons_of_pos rest
            (show ((fun x => key x == j) (f a)) = true by simp [hf a haj]),
          List.find?_cons_of_pos rest h1, Option.map_some']
      · rw [if_neg hji,
          List.find?_cons_of_neg rest
            (show ¬ ((fun x => key x == i) (f a)) = true by
              simp [hf a haj]; exact hji),
          List.find?_cons_of_neg rest
            (show ¬ ((fun x => key x == i) a) = true by
              simp [haj]; exact hji)]
    · have h1 : ((fun x => key x == j) a) = false := by simp [haj]
      have hupd : updateBy (fun x => key x == j) f (a :: rest) =
          a :: updateBy (fun x => key x == j) f rest := by
        simp [updateBy, h1]
      rw [hupd]
      by_cases hai : key a = i
      · have hji : ¬ j = i := fun h => haj (hai.trans h.symm)
        have h2 : ((fun x => key x == i) a) = true := by simp [hai]
        rw [if_neg hji,
          List.find?_cons_of_pos (updateBy (fun x => key x == j) f rest) h2,
          List.find?_cons_of_pos rest h2]
      · have h2 : ¬ ((fun x => key x == i) a) = true := by simp [hai]
        rw [List.find?_cons_of_neg (updateBy (fun x => key x == j) f rest) h2,
          ih, List.find?_cons_of_neg rest h2]

theorem not_mem_filter_bne (a : Nat) (l : List Nat) :
    a ∉ l.filter (fun x => x != a) := by
  intro h
  have h2 := (List.mem_filter.mp h).2
  simp at h2

theorem filter_bne_of_not_mem (a : Nat) (l : List Nat) (h : a ∉ l) :
    l.filter (fun x => x != a) = l := by
  apply List.filter_eq_self.mpr
  intro x hx
  simp only [bne_iff_ne, ne_eq, decide_eq_true_eq]
  exact fun hxa => h (hxa ▸ hx)

theorem length_filter_bne_add_count (a : Nat) (l : List Nat) :
    (l.filter (fun x => x != a)).length + l.count a = l.length := by
  induction l with
  | nil => rfl
  | cons x rest ih =>
    by_cases hxa : x = a
    · subst hxa
      rw [List.filter_cons_of_neg (by simp), List.count_cons_self,
        List.length_cons]
      omega
    · rw [List.filter_cons_of_pos (by simp [hxa]), List.length_cons,
        List.count_cons, List.length_cons]
      have h2 : (x == a) = false := by simp [hxa]
      simp only [h2, Bool.false_eq_true, if_false]
      omega

theorem findUser_updateUser (i j : Nat) (f : UserDoc → UserDoc)
    (hf : ∀ u, u.id = j → (f u).id = j) (us : List UserDoc) :
    findUser i (updateUser j f us) =
      if j = i then (findUser i us).map f else findUser i us :=
  find?_updateBy_key UserDoc.id i j f hf us

theorem findTweet_updateTweet (i j : Nat) (f : TweetDoc → TweetDoc)
    (hf : ∀ t, t.id = j → (f t).id = j) (ts : List TweetDoc) :
    findTweet i (updateTweet j f ts) =
      if j = i then (findTweet i ts).map f else findTweet i ts :=
  find?_updateBy_key TweetDoc.id i j f hf ts

/-! ## Inversion lemmas for the persistence primitives -/

theorem saveTweet_ok_inv (t : TweetDoc) (db db' : DB)
    (h : saveTweet t db = .ok db') :
    tweetTextError t.text = none ∧
    db' = { db with tweets := updateTweet t.id (fun _ => preSave t) db.tweets } := by
  unfold saveTweet at h
  cases he : tweetTextError t.text with
  | some m => rw [he] at h; simp at h
  | none =>
    rw [he] at h
    simp only [Except.ok.injEq] at h
    exact ⟨rfl, h.symm⟩

theorem saveTweet_of_valid (t : TweetDoc) (db : DB)
    (h : tweetTextError t.text = none) :
    saveTweet t db =
      .ok { db with tweets := updateTweet t.id (fun _ => preSave t) db.tweets } := by
  unfold saveTweet
  rw [h]

theorem insertTweet_ok_inv (t tw : TweetDoc) (db db' : DB)
    (h : insertTweet t db = .ok (tw, db')) :
    tweetTextError t.text = none ∧
    tw = preSave { t with id := db.nextId } ∧
    db' = { db with tweets := db.tweets ++ [tw], nextId := db.nextId + 1 } := by
  unfold insertTweet at h
  cases he : tweetTextError t.text with
  | some m => rw [he] at h; simp at h
  | none =>
    rw [he] at h
    simp only [Except.ok.injEq, Prod.mk.injEq] at h
    refine ⟨rfl, h.1.symm, ?_⟩
    rw [← h.2, h.1]

theorem insertTweet_of_valid (t : TweetDoc) (db : DB)
    (h : tweetTextError t.text = none) :
    insertTweet t db =
      .ok (preSave { t with id := db.nextId },
        { db with tweets := db.tweets ++ [preSave { t with id := db.nextId }],
                  nextId := db.nextId + 1 }) := by
  unfold insertTweet
  rw [h]

theorem insertNotification_ok_inv (eff : Effects) (n : NotificationDoc)
    (db db' : DB) (h : insertNotification eff n db = .ok db') :
    eff.notifOk = true ∧
    db' = { db with notifications := db.notifications ++ [n] } := by
  unfold insertNotification at h
  cases he : eff.notifOk with
  | false => rw [he] at h; simp at h
  | true =>
    rw [he] at h
    simp only [if_true, Except.ok.injEq] at h
    exact ⟨rfl, h.symm⟩

theorem insertNotification_of_ok (eff : Effects) (n : NotificationDoc) (db : DB)
    (h : eff.notifOk = true) :
    insertNotification eff n db =
      .ok { db with notifications := db.notifications ++ [n] } := by
  unfold insertNotification
  rw [h]
  simp

theorem insertNotification_of_down (eff : Effects) (n : NotificationDoc) (db : DB)
    (h : eff.notifOk = false) :
    insertNotification eff n db = .error (.internal "Notification.create failed") := by
  unfold insertNotification
  rw [h]
  simp

/-! ## C9: post deletion never touches the trending index -/

/-- C9. `deleteTweet` leaves every `TrendingTopic` record unchanged: whatever
the request, the actor, and the database (including when the deleted post's
hashtags contributed to topics), the trending collection after the call —
successful or not — is exactly the trending collection before it. -/
theorem deleteTweetTrendingFrame (eff : Effects) (uid tid : Nat) (db : DB) :
    ((deleteTweet eff uid tid db).1).trending = db.trending := by
  unfold deleteTweet
  repeat' split
  all_goals rfl

/-! ## C10: a reply requires non-empty text -/

/-- C10. For every reply request whose `text` is absent or the empty string,
`replyToTweet` fails with the 400 validation error before any lookup or
write: no post is created, and the parent's `replies` are unchanged (the
whole state is returned untouched). -/
theorem replyRequiresText (eff : Effects) (uid tid : Nat) (txt : Option String)
    (db : DB) (h : txt = none ∨ txt = some "") :
    replyToTweet eff uid tid txt db =
      (db, .error (.status 400 "Reply text is required")) := by
  have hf : falsyText txt = true := by
    rcases h with h | h <;> simp [h, falsyText]
  unfold replyToTweet
  simp [hf]

/-- witness for C10: the empty-text reply request on the concrete database -/
theorem replyRequiresText_witness :
    ((some "" : Option String) = none ∨ (some "" : Option String) = some "") ∧
    replyToTweet effAll 2 10 (some "") exDB =
      (exDB, .error (.status 400 "Reply text is required")) :=
  ⟨Or.inr rfl, replyRequiresText effAll 2 10 (some "") exDB (Or.inr rfl)⟩

/-! ## C2: image-only posts

The handler's guard (`if (!text && !req.file)`) deliberately admits an
image-only request, but `Tweet.create` then runs the schema validation of
`tweetSchema.text` (`required: true`), which rejects the empty string that
`text || ''` produced. The image-only post is therefore never created: the
thrown `ValidationError` reaches the catch-all and the caller sees an
error, with no state change. -/

/-- C2. On every database: a request with an image and absent (or empty) text
is NOT created successfully — `Tweet.create` throws the `required` validator's
message after the handler guard admitted the request — while a request with
neither text nor image is rejected by the guard with the 400 response. -/
theorem imageOnlyPostRejected (uid : Nat) (db : DB) :
    createTweet effAll uid { text := none, file := true } db =
      (db, .error (.internal "Tweet text is required")) ∧
    createTweet effAll uid { text := some "", file := true } db =
      (db, .error (.internal "Tweet text is required")) ∧
    createTweet effAll uid { text := none, file := false } db =
      (db, .error (.status 400 "Tweet text or image is required")) := by
  refine ⟨?_, ?_, ?_⟩ <;> rfl

/-! ## C1: side-effect failures propagate to the caller -/

/-- Counterexample to C1: with the notification store down, liking another
account's post does not commit the like and the caller observes an internal
error — the secondary side-effect failure is not caught locally, and the
primary mutation's success is not what the caller observes. -/
theorem sideEffectFailureObserved_cex :
    likeTweet effNoNotif 2 10 exDB =
      (exDB, .error (.internal "Notification.create failed")) := by
  rfl

/-! ## C4: follow/unfollow graph symmetry -/

/-- C4. For all accounts A and B (distinct whenever the handler succeeds, by
its self-check): after `followUser(A,B)` succeeds, B is a member of A's
`following` and A is a member of B's `followers`; after `unfollowUser(A,B)`
succeeds, B is not in A's `following` and A is not in B's `followers`. -/
theorem followGraphSymmetry (eff : Effects) (a b : Nat) (db : DB) :
    (∀ db' r, followUser eff a b db = (db', Except.ok r) →
       (∃ ua, findUser a db'.users = some ua ∧ b ∈ ua.following) ∧
       (∃ ub, findUser b db'.users = some ub ∧ a ∈ ub.followers)) ∧
    (∀ db' r, unfollowUser a b db = (db', Except.ok r) →
       (∀ ua, findUser a db'.users = some ua → b ∉ ua.following) ∧
       (∀ ub, findUser b db'.users = some ub → a ∉ ub.followers)) := by
  constructor
  · intro db' r h
    unfold followUser at h
    split at h
    · simp at h
    · rename_i target heq
      split at h
      · simp at h
      · rename_i hab
        split at h
        · simp at h
        · dsimp only at h
          split at h
          · simp at h
          · rename_i cur hcur
            split at h
            · simp at h
            · rename_i db3 hins
              simp only [Prod.mk.injEq, Except.ok.injEq] at h
              obtain ⟨h1, -⟩ := h
              subst h1
              obtain ⟨-, h2⟩ := insertNotification_ok_inv _ _ _ _ hins
              subst h2
              have hg : ∀ u : UserDoc, u.id = a →
                  (({ u with following := u.following ++ [b] } : UserDoc)).id = a := by
                intro u hu; simpa using hu
              have hf : ∀ u : UserDoc, u.id = b →
                  (({ u with followers := u.followers ++ [a] } : UserDoc)).id = b := by
                intro u hu; simpa using hu
              constructor
              · have h4 := findUser_updateUser a a
                  (fun u => { u with following := u.following ++ [b] }) hg
                  (updateUser b (fun u => { u with followers := u.followers ++ [a] })
                    db.users)
                rw [if_pos rfl] at h4
                dsimp only
                simp only [h4, hcur, Option.map_some', Option.some.injEq]
                exact ⟨_, rfl, by simp⟩
              · have h5 := findUser_updateUser b a
                  (fun u => { u with following := u.following ++ [b] }) hg
                  (updateUser b (fun u => { u with followers := u.followers ++ [a] })
                    db.users)
                rw [if_neg hab] at h5
                have h6 := findUser_updateUser b b
                  (fun u => { u with followers := u.followers ++ [a] }) hf db.users
                rw [if_pos rfl] at h6
                dsimp only
                simp only [h5, h6, heq, Option.map_some', Option.some.injEq]
                exact ⟨_, rfl, by simp⟩
  · intro db' r h
    unfold unfollowUser at h
    split at h
    · simp at h
    · rename_i target heq
      split at h
      · simp at h
      · rename_i hab
        split at h
        · simp at h
        · rename_i hmem
          dsimp only at h
          split at h
          · simp at h
          · rename_i cur hcur
            simp only [Prod.mk.injEq, Except.ok.injEq] at h
            obtain ⟨h1, -⟩ := h
            subst h1
            have hg : ∀ u : UserDoc, u.id = a →
                (({ u with following := u.following.filter (fun x => x != b) } :
                  UserDoc)).id = a := by
              intro u hu; simpa using hu
            have hf : ∀ u : UserDoc, u.id = b →
                (({ u with followers := u.followers.filter (fun x => x != a) } :
                  UserDoc)).id = b := by
              intro u hu; simpa using hu
            constructor
            · intro ua hua
              have h4 := findUser_updateUser a a
                (fun u => { u with following := u.following.filter (fun x => x != b) })
                hg
                (updateUser b
                  (fun u => { u with followers := u.followers.filter (fun x => x != a) })
                  db.users)
              rw [if_pos rfl] at h4
              dsimp only at hua
              rw [h4, hcur, Option.map_some', Option.some.injEq] at hua
              subst hua
              exact not_mem_filter_bne b cur.following
            · intro ub hub
              have h5 := findUser_updateUser b a
                (fun u => { u with following := u.following.filter (fun x => x != b) })
                hg
                (updateUser b
                  (fun u => { u with followers := u.followers.filter (fun x => x != a) })
                  db.users)
              rw [if_neg hab] at h5
              have h6 := findUser_updateUser b b
                (fun u => { u with followers := u.followers.filter (fun x => x != a) })
                hf db.users
              rw [if_pos rfl] at h6
              dsimp only at hub
              rw [h5, h6, heq, Option.map_some', Option.some.injEq] at hub
              subst hub
              exact not_mem_filter_bne a target.followers

/-- witness for C4: a concrete successful follow and unfollow between alice
(id 1) and bob (id 2) -/
theorem followGraphSymmetry_witness :
    ((∃ ua, findUser 1 (followUser effAll 1 2 exDB).1.users = some ua ∧
        2 ∈ ua.following) ∧
     (∃ ub, findUser 2 (followUser effAll 1 2 exDB).1.users = some ub ∧
        1 ∈ ub.followers)) ∧
    ((∀ ua, findUser 1 (unfollowUser 1 2 (followUser effAll 1 2 exDB).1).1.users =
        some ua → 2 ∉ ua.following) ∧
     (∀ ub, findUser 2 (unfollowUser 1 2 (followUser effAll 1 2 exDB).1).1.users =
        some ub → 1 ∉ ub.followers)) := by
  constructor
  · exact (followGraphSymmetry effAll 1 2 exDB).1
      (followUser effAll 1 2 exDB).1 "User followed successfully" rfl
  · exact (followGraphSymmetry effAll 1 2 (followUser effAll 1 2 exDB).1).2
      (unfollowUser 1 2 (followUser effAll 1 2 exDB).1).1
      "User unfollowed successfully" rfl

/-! ## Trending upsert lemmas -/

theorem tagCount_trendingUpsert (tag : String) (id : Nat)
    (tr : List TrendingDoc) :
    tagCount tag (trendingUpsert tag id tr) = tagCount tag tr + 1 := by
  induction tr with
  | nil => simp [trendingUpsert, tagCount, findTag]
  | cons d rest ih =>
    cases hd : (d.tag == tag) with
    | true =>
      simp only [trendingUpsert, hd, if_true]
      unfold tagCount findTag
      rw [List.find?_cons_of_pos rest (by simpa using hd),
        List.find?_cons_of_pos rest hd]
      rfl
    | false =>
      simp only [trendingUpsert, hd, Bool.false_eq_true, if_false]
      unfold tagCount findTag
      rw [List.find?_cons_of_neg (trendingUpsert tag id rest) (by simp [hd]),
        List.find?_cons_of_neg rest (by simp [hd])]
      exact ih

theorem tagTweets_trendingUpsert (tag : String) (id : Nat)
    (tr : List TrendingDoc) :
    tagTweets tag (trendingUpsert tag id tr) = tagTweets tag tr ++ [id] := by
  induction tr with
  | nil => simp [trendingUpsert, tagTweets, findTag]
  | cons d rest ih =>
    cases hd : (d.tag == tag) with
    | true =>
      simp only [trendingUpsert, hd, if_true]
      unfold tagTweets findTag
      rw [List.find?_cons_of_pos rest (by simpa using hd),
        List.find?_cons_of_pos rest hd]
      rfl
    | false =>
      simp only [trendingUpsert, hd, Bool.false_eq_true, if_false]
      unfold tagTweets findTag
      rw [List.find?_cons_of_neg (trendingUpsert tag id rest) (by simp [hd]),
        List.find?_cons_of_neg rest (by simp [hd])]
      exact ih

theorem findTag_trendingUpsert_new (tag : String) (id : Nat)
    (tr : List TrendingDoc) (h : findTag tag tr = none) :
    findTag tag (trendingUpsert tag id tr) =
      some { tag := tag, count := 1, category := "Trending", tweets := [id] } := by
  induction tr with
  | nil => simp [trendingUpsert, findTag]
  | cons d rest ih =>
    cases hd : (d.tag == tag) with
    | true =>
      exfalso
      unfold findTag at h
      rw [List.find?_cons_of_pos rest hd] at h
      exact Option.noConfusion h
    | false =>
      unfold findTag at h ⊢
      rw [List.find?_cons_of_neg rest (by simp [hd])] at h
      simp only [trendingUpsert, hd, Bool.false_eq_true, if_false]
      rw [List.find?_cons_of_neg (trendingUpsert tag id rest) (by simp [hd])]
      exact ih h

/-! ## C3: hashtag de-duplication and the trending upsert -/

/-- C3. Creating a post with body `"#Foo bar #foo #FOO"` succeeds, stores the
lower-cased de-duplicated hashtag set `{foo}` on the post, and upserts the
`foo` TrendingTopic exactly once: its count rises by exactly 1 and the new
post id is appended to its contributor list; if the topic did not exist, it
is created with count 1, the default category, and this post as its only
contributor. -/
theorem createTweetHashtagDedup (eff : Effects) (heff : eff.trendingOk = true)
    (db : DB) (uid : Nat) :
    ∃ tw db2,
      createTweet eff uid { text := some "#Foo bar #foo #FOO", file := false } db =
        (db2, Except.ok tw) ∧
      tw.hashtags = ["foo"] ∧
      db2.trending = trendingUpsert "foo" db.nextId db.trending ∧
      tagCount "foo" db2.trending = tagCount "foo" db.trending + 1 ∧
      tagTweets "foo" db2.trending = tagTweets "foo" db.trending ++ [db.nextId] ∧
      (findTag "foo" db.trending = none →
        findTag "foo" db2.trending =
          some { tag := "foo", count := 1, category := "Trending",
                 tweets := [db.nextId] }) := by
  unfold createTweet
  dsimp only
  simp only [show (falsyText (some "#Foo bar #foo #FOO") && !false) = false from rfl,
    Bool.false_eq_true, if_false, textOrEmpty]
  rw [insertTweet_of_valid
    { id := 0, text := "#Foo bar #foo #FOO", author := uid, imageUrl := none }
    db (by rfl)]
  dsimp only [preSave]
  simp only [show jsTrim "#Foo bar #foo #FOO" = "#Foo bar #foo #FOO" from rfl,
    show extractHashtags "#Foo bar #foo #FOO" = ["foo"] from rfl,
    show extractMentions (jsString (some "#Foo bar #foo #FOO")) = [] from rfl,
    heff]
  simp only [show (!(["foo"] : List String).isEmpty && !true) = false from rfl,
    Bool.false_eq_true, if_false, List.foldl]
  have hcontains : ∀ u : UserDoc, (([] : List String).contains u.username) = false :=
    fun _ => rfl
  have hfilter : ∀ l : List UserDoc, l.filter (fun _ => false) = [] := by
    intro l
    induction l with
    | nil => rfl
    | cons x rest ih => simp [List.filter, ih]
  simp only [hcontains, hfilter, List.filter_nil, List.map_nil, List.isEmpty_nil,
    Bool.not_true, Bool.false_and, Bool.false_eq_true, if_false, List.append_nil]
  refine ⟨_, _, rfl, rfl, rfl, ?_, ?_, ?_⟩
  · exact tagCount_trendingUpsert "foo" db.nextId db.trending
  · exact tagTweets_trendingUpsert "foo" db.nextId db.trending
  · exact findTag_trendingUpsert_new "foo" db.nextId db.trending

/-- witness for C3: alice posts `"#Foo bar #foo #FOO"` on the concrete
database (whose trending index is empty) -/
theorem createTweetHashtagDedup_witness :
    effAll.trendingOk = true ∧
    ∃ tw db2,
      createTweet effAll 1 { text := some "#Foo bar #foo #FOO", file := false }
        exDB = (db2, Except.ok tw) ∧
      tw.hashtags = ["foo"] ∧
      db2.trending = trendingUpsert "foo" exDB.nextId exDB.trending ∧
      tagCount "foo" db2.trending = tagCount "foo" exDB.trending + 1 ∧
      tagTweets "foo" db2.trending = tagTweets "foo" exDB.trending ++ [exDB.nextId] ∧
      (findTag "foo" exDB.trending = none →
        findTag "foo" db2.trending =
          some { tag := "foo", count := 1, category := "Trending",
                 tweets := [exDB.nextId] }) :=
  ⟨rfl, createTweetHashtagDedup effAll rfl exDB 1⟩

/-! ## Single-call run lemmas for `likeTweet` -/

theorem likeTweet_unlike_spec (eff : Effects) (uid tid : Nat) (db : DB)
    (t : TweetDoc) (hfind : findTweet tid db.tweets = some t)
    (hmem : uid ∈ t.likes) (hval : tweetTextError t.text = none) :
    ∃ (T1 : TweetDoc) (db1 : DB) (r : LikeResp),
      likeTweet eff uid tid db = (db1, Except.ok r) ∧
      T1.id = t.id ∧ T1.likes = t.likes.filter (fun x => x != uid) ∧
      T1.text = jsTrim t.text ∧
      db1.tweets = updateTweet t.id (fun _ => T1) db.tweets := by
  refine ⟨preSave { t with likes := t.likes.filter (fun x => x != uid) },
    { db with tweets := (updateTweet t.id
        (fun _ => preSave { t with likes := t.likes.filter (fun x => x != uid) })
        db.tweets) },
    { message := "Tweet unliked",
      likes := (t.likes.filter (fun x => x != uid)).length, isLiked := false },
    ?_, rfl, rfl, rfl, rfl⟩
  unfold likeTweet
  rw [hfind]
  dsimp only
  rw [if_pos hmem]
  rw [saveTweet_of_valid { t with likes := t.likes.filter (fun x => x != uid) }
    _ hval]

theorem likeTweet_like_spec (eff : Effects) (uid tid : Nat) (db : DB)
    (t : TweetDoc) (hfind : findTweet tid db.tweets = some t)
    (hmem : uid ∉ t.likes) (hval : tweetTextError t.text = none)
    (heff : eff.notifOk = true) :
    ∃ (T1 : TweetDoc) (db1 : DB) (r : LikeResp),
      likeTweet eff uid tid db = (db1, Except.ok r) ∧
      T1.id = t.id ∧ T1.likes = t.likes ++ [uid] ∧
      T1.text = jsTrim t.text ∧
      db1.tweets = updateTweet t.id (fun _ => T1) db.tweets := by
  by_cases hauth : t.author = uid
  · refine ⟨preSave { t with likes := t.likes ++ [uid] },
      { db with tweets := (updateTweet t.id
          (fun _ => preSave { t with likes := t.likes ++ [uid] }) db.tweets) },
      { message := "Tweet liked", likes := (t.likes ++ [uid]).length,
        isLiked := true },
      ?_, rfl, rfl, rfl, rfl⟩
    unfold likeTweet
    rw [hfind]
    dsimp only
    rw [if_neg hmem, if_neg (fun h => h hauth)]
    dsimp only
    rw [saveTweet_of_valid { t with likes := t.likes ++ [uid] } _ hval]
  · refine ⟨preSave { t with likes := t.likes ++ [uid] },
      { users := db.users,
        tweets := (updateTweet t.id
          (fun _ => preSave { t with likes := t.likes ++ [uid] }) db.tweets),
        notifications := (db.notifications ++
          [{ recipient := t.author, sender := uid, type := .like,
             tweet := some t.id }]),
        trending := db.trending, nextId := db.nextId },
      { message := "Tweet liked", likes := (t.likes ++ [uid]).length,
        isLiked := true },
      ?_, rfl, rfl, rfl, rfl⟩
    unfold likeTweet
    rw [hfind]
    dsimp only
    rw [if_neg hmem, if_pos hauth, insertNotification_of_ok _ _ _ heff]
    dsimp only
    rw [saveTweet_of_valid { t with likes := t.likes ++ [uid] } _ hval]

/-! ## C8: the like toggle is an involution on likes state -/

/-- C8. For a stored post P (well-formed text, the actor appearing at most
once in its `likes`) and healthy collaborators, calling `likeTweet(A,P)` twice
in sequence succeeds both times and returns P to its original likes
membership for A and its original like count. -/
theorem likeToggleRestores (eff : Effects) (heff : eff.notifOk = true)
    (db : DB) (uid tid : Nat) (t : TweetDoc)
    (hfind : findTweet tid db.tweets = some t)
    (htext : storedTextOk t)
    (hcount : t.likes.count uid ≤ 1) :
    ∃ db1 r1 db2 r2,
      likeTweet eff uid tid db = (db1, Except.ok r1) ∧
      likeTweet eff uid tid db1 = (db2, Except.ok r2) ∧
      ∃ t2, findTweet tid db2.tweets = some t2 ∧
        (uid ∈ t2.likes ↔ uid ∈ t.likes) ∧
        t2.likes.length = t.likes.length := by
  obtain ⟨htrim, hvalid⟩ := htext
  have htid : t.id = tid := by
    have h := List.find?_some hfind
    simpa using h
  by_cases hmem : uid ∈ t.likes
  · -- unlike, then like
    obtain ⟨T1, db1, r1, run1, hT1id, hT1likes, hT1text, hdb1⟩ :=
      likeTweet_unlike_spec eff uid tid db t hfind hmem hvalid
    have hval1 : tweetTextError T1.text = none := by
      rw [hT1text, htrim]; exact hvalid
    have hfind1 : findTweet tid db1.tweets = some T1 := by
      rw [hdb1, findTweet_updateTweet tid t.id (fun _ => T1)
        (fun _ _ => hT1id) db.tweets, if_pos htid, hfind, Option.map_some']
    have hmem1 : uid ∉ T1.likes := by
      rw [hT1likes]; exact not_mem_filter_bne uid t.likes
    obtain ⟨T2, db2, r2, run2, hT2id, hT2likes, hT2text, hdb2⟩ :=
      likeTweet_like_spec eff uid tid db1 T1 hfind1 hmem1 hval1 heff
    have hfind2 : findTweet tid db2.tweets = some T2 := by
      rw [hdb2, findTweet_updateTweet tid T1.id (fun _ => T2)
        (fun _ _ => hT2id) db1.tweets, hT1id, if_pos htid, hfind1,
        Option.map_some']
    refine ⟨db1, r1, db2, r2, run1, run2, T2, hfind2, ?_, ?_⟩
    · rw [hT2likes]
      constructor
      · intro _; exact hmem
      · intro _; exact List.mem_append_right _ (List.mem_singleton.mpr rfl)
    · have hc1 : t.likes.count uid = 1 :=
        Nat.le_antisymm hcount (List.count_pos_iff.mpr hmem)
      have hlen := length_filter_bne_add_count uid t.likes
      rw [hT2likes, hT1likes, List.length_append]
      simp only [List.length_singleton]
      omega
  · -- like, then unlike
    obtain ⟨T1, db1, r1, run1, hT1id, hT1likes, hT1text, hdb1⟩ :=
      likeTweet_like_spec eff uid tid db t hfind hmem hvalid heff
    have hval1 : tweetTextError T1.text = none := by
      rw [hT1text, htrim]; exact hvalid
    have hfind1 : findTweet tid db1.tweets = some T1 := by
      rw [hdb1, findTweet_updateTweet tid t.id (fun _ => T1)
        (fun _ _ => hT1id) db.tweets, if_pos htid, hfind, Option.map_some']
    have hmem1 : uid ∈ T1.likes := by
      rw [hT1likes]
      exact List.mem_append_right _ (List.mem_singleton.mpr rfl)
    obtain ⟨T2, db2, r2, run2, hT2id, hT2likes, hT2text, hdb2⟩ :=
      likeTweet_unlike_spec eff uid tid db1 T1 hfind1 hmem1 hval1
    have hfind2 : findTweet tid db2.tweets = some T2 := by
      rw [hdb2, findTweet_updateTweet tid T1.id (fun _ => T2)
        (fun _ _ => hT2id) db1.tweets, hT1id, if_pos htid, hfind1,
        Option.map_some']
    have hfilter : T2.likes = t.likes := by
      rw [hT2likes, hT1likes, List.filter_append,
        filter_bne_of_not_mem uid t.likes hmem]
      simp
    refine ⟨db1, r1, db2, r2, run1, run2, T2, hfind2, ?_, ?_⟩
    · rw [hfilter]
    · rw [hfilter]

/-- witness for C8: bob toggles the like on alice's post twice on the
concrete database -/
theorem likeToggleRestores_witness :
    effAll.notifOk = true ∧
    findTweet 10 exDB.tweets = some exTweet ∧
    storedTextOk exTweet ∧
    exTweet.likes.count 2 ≤ 1 ∧
    ∃ db1 r1 db2 r2,
      likeTweet effAll 2 10 exDB = (db1, Except.ok r1) ∧
      likeTweet effAll 2 10 db1 = (db2, Except.ok r2) ∧
      ∃ t2, findTweet 10 db2.tweets = some t2 ∧
        (2 ∈ t2.likes ↔ 2 ∈ exTweet.likes) ∧
        t2.likes.length = exTweet.likes.length :=
  ⟨rfl, rfl, by decide, by decide,
    likeToggleRestores effAll rfl exDB 2 10 exTweet rfl (by decide) (by decide)⟩

/-! ## C7: no self-notification on like / retweet / reply -/

theorem notifications_likeTweet (eff : Effects) (uid tid : Nat) (db : DB) :
    (likeTweet eff uid tid db).1.notifications = db.notifications ∨
    ∃ t, findTweet tid db.tweets = some t ∧ t.author ≠ uid ∧
      (likeTweet eff uid tid db).1.notifications =
        db.notifications ++
          [{ recipient := t.author, sender := uid, type := .like,
             tweet := some t.id }] := by
  unfold likeTweet
  split
  · left; rfl
  · rename_i t heq
    split
    · dsimp only
      split
      · left; rfl
      · rename_i db1 hsave
        obtain ⟨-, h2⟩ := saveTweet_ok_inv _ _ _ hsave
        subst h2
        left; rfl
    · dsimp only
      split
      · left; rfl
      · rename_i db1 hins
        split
        · split at hins
          · rename_i hauth
            obtain ⟨-, h2⟩ := insertNotification_ok_inv _ _ _ _ hins
            subst h2
            right
            exact ⟨t, heq, hauth, rfl⟩
          · simp only [Except.ok.injEq] at hins
            subst hins
            left; rfl
        · rename_i db2 hsave
          obtain ⟨-, h2⟩ := saveTweet_ok_inv _ _ _ hsave
          subst h2
          split at hins
          · rename_i hauth
            obtain ⟨-, h3⟩ := insertNotification_ok_inv _ _ _ _ hins
            subst h3
            right
            exact ⟨t, heq, hauth, rfl⟩
          · simp only [Except.ok.injEq] at hins
            subst hins
            left; rfl

theorem notifications_retweetTweet (eff : Effects) (uid tid : Nat) (db : DB) :
    (retweetTweet eff uid tid db).1.notifications = db.notifications ∨
    ∃ t, findTweet tid db.tweets = some t ∧ t.author ≠ uid ∧
      (retweetTweet eff uid tid db).1.notifications =
        db.notifications ++
          [{ recipient := t.author, sender := uid, type := .retweet,
             tweet := some t.id }] := by
  unfold retweetTweet
  split
  · left; rfl
  · rename_i t heq
    split
    · dsimp only
      split
      · left; rfl
      · rename_i db2 hsave
        obtain ⟨-, h2⟩ := saveTweet_ok_inv _ _ _ hsave
        subst h2
        left; rfl
    · dsimp only
      split
      · left; rfl
      · rename_i tw db1 hinst
        obtain ⟨-, -, h1⟩ := insertTweet_ok_inv _ _ _ _ hinst
        subst h1
        split
        · left; rfl
        · rename_i db2 hins
          split
          · split at hins
            · rename_i hauth
              obtain ⟨-, h2⟩ := insertNotification_ok_inv _ _ _ _ hins
              subst h2
              right
              exact ⟨t, heq, hauth, rfl⟩
            · simp only [Except.ok.injEq] at hins
              subst hins
              left; rfl
          · rename_i db3 hsave
            obtain ⟨-, h3⟩ := saveTweet_ok_inv _ _ _ hsave
            subst h3
            split at hins
            · rename_i hauth
              obtain ⟨-, h2⟩ := insertNotification_ok_inv _ _ _ _ hins
              subst h2
              right
              exact ⟨t, heq, hauth, rfl⟩
            · simp only [Except.ok.injEq] at hins
              subst hins
              left; rfl

theorem notifications_replyToTweet (eff : Effects) (uid tid : Nat)
    (txt : Option String) (db : DB) :
    (replyToTweet eff uid tid txt db).1.notifications = db.notifications ∨
    ∃ p, findTweet tid db.tweets = some p ∧ p.author ≠ uid ∧
      (replyToTweet eff uid tid txt db).1.notifications =
        db.notifications ++
          [{ recipient := p.author, sender := uid, type := .reply,
             tweet := some p.id }] := by
  unfold replyToTweet
  split
  · left; rfl
  · split
    · left; rfl
    · rename_i p heq
      split
      · left; rfl
      · rename_i rt db1 hinst
        obtain ⟨-, -, h1⟩ := insertTweet_ok_inv _ _ _ _ hinst
        subst h1
        dsimp only
        split
        · left; rfl
        · rename_i db2 hsave
          obtain ⟨-, h2⟩ := saveTweet_ok_inv _ _ _ hsave
          subst h2
          split
          · left; rfl
          · rename_i db3 hins
            split at hins
            · rename_i hauth
              obtain ⟨-, h3⟩ := insertNotification_ok_inv _ _ _ _ hins
              subst h3
              right
              exact ⟨p, heq, hauth, rfl⟩
            · simp only [Except.ok.injEq] at hins
              subst hins
              left; rfl

/-- C7. Liking, retweeting, or replying to one's own post never creates a
Notification (the notifications collection is unchanged), and every
notification these three operations do create has a sender distinct from its
recipient. -/
theorem noSelfNotification (eff : Effects) (uid tid : Nat) (txt : Option String)
    (db : DB) :
    ((∀ n, n ∈ (likeTweet eff uid tid db).1.notifications →
        n ∈ db.notifications ∨ n.sender ≠ n.recipient) ∧
     (∀ n, n ∈ (retweetTweet eff uid tid db).1.notifications →
        n ∈ db.notifications ∨ n.sender ≠ n.recipient) ∧
     (∀ n, n ∈ (replyToTweet eff uid tid txt db).1.notifications →
        n ∈ db.notifications ∨ n.sender ≠ n.recipient)) ∧
    (∀ t, findTweet tid db.tweets = some t → t.author = uid →
        (likeTweet eff uid tid db).1.notifications = db.notifications ∧
        (retweetTweet eff uid tid db).1.notifications = db.notifications ∧
        (replyToTweet eff uid tid txt db).1.notifications = db.notifications) := by
  have hlike := notifications_likeTweet eff uid tid db
  have hrt := notifications_retweetTweet eff uid tid db
  have hreply := notifications_replyToTweet eff uid tid txt db
  constructor
  · refine ⟨?_, ?_, ?_⟩
    · intro n hn
      rcases hlike with h | ⟨t, -, hauth, h⟩
      · exact Or.inl (h ▸ hn)
      · rw [h] at hn
        rcases List.mem_append.mp hn with h1 | h1
        · exact Or.inl h1
        · simp only [List.mem_singleton] at h1
          subst h1
          exact Or.inr (fun hc => hauth hc.symm)
    · intro n hn
      rcases hrt with h | ⟨t, -, hauth, h⟩
      · exact Or.inl (h ▸ hn)
      · rw [h] at hn
        rcases List.mem_append.mp hn with h1 | h1
        · exact Or.inl h1
        · simp only [List.mem_singleton] at h1
          subst h1
          exact Or.inr (fun hc => hauth hc.symm)
    · intro n hn
      rcases hreply with h | ⟨t, -, hauth, h⟩
      · exact Or.inl (h ▸ hn)
      · rw [h] at hn
        rcases List.mem_append.mp hn with h1 | h1
        · exact Or.inl h1
        · simp only [List.mem_singleton] at h1
          subst h1
          exact Or.inr (fun hc => hauth hc.symm)
  · intro t hfind hself
    refine ⟨?_, ?_, ?_⟩
    · rcases hlike with h | ⟨t2, hfind2, hauth, -⟩
      · exact h
      · rw [hfind] at hfind2
        cases hfind2
        exact absurd hself hauth
    · rcases hrt with h | ⟨t2, hfind2, hauth, -⟩
      · exact h
      · rw [hfind] at hfind2
        cases hfind2
        exact absurd hself hauth
    · rcases hreply with h | ⟨t2, hfind2, hauth, -⟩
      · exact h
      · rw [hfind] at hfind2
        cases hfind2
        exact absurd hself hauth

/-- witness for C7: concrete instantiation for bob (id 2) acting on alice's
post (id 10) -/
theorem noSelfNotification_witness :
    ((∀ n, n ∈ (likeTweet effAll 2 10 exDB).1.notifications →
        n ∈ exDB.notifications ∨ n.sender ≠ n.recipient) ∧
     (∀ n, n ∈ (retweetTweet effAll 2 10 exDB).1.notifications →
        n ∈ exDB.notifications ∨ n.sender ≠ n.recipient) ∧
     (∀ n, n ∈ (replyToTweet effAll 2 10 (some "hi") exDB).1.notifications →
        n ∈ exDB.notifications ∨ n.sender ≠ n.recipient)) ∧
    (∀ t, findTweet 10 exDB.tweets = some t → t.author = 2 →
        (likeTweet effAll 2 10 exDB).1.notifications = exDB.notifications ∧
        (retweetTweet effAll 2 10 exDB).1.notifications = exDB.notifications ∧
        (replyToTweet effAll 2 10 (some "hi") exDB).1.notifications =
          exDB.notifications) :=
  noSelfNotification effAll 2 10 (some "hi") exDB

/-! ## C6: delete authorization and cascade -/

theorem findTweet_deleteFirst_of_disjoint (i : Nat) (q : TweetDoc → Bool)
    (ts : List TweetDoc)
    (h : ∀ x ∈ ts, q x = true → (x.id == i) = false) :
    findTweet i (deleteFirst q ts) = findTweet i ts :=
  find?_deleteFirst_of_disjoint _ _ _ h

/-- C6. `deleteTweet` fails with the 403 Forbidden response and performs no
mutation whenever the actor is not the post's author; when it succeeds, every
notification referencing the deleted post is gone, and if the post was a
reply (to a distinct, well-formed parent) its id is no longer in the parent's
`replies`. -/
theorem deleteTweetAuthCascade (eff : Effects) (db : DB) (uid tid : Nat)
    (t : TweetDoc) (hfind : findTweet tid db.tweets = some t) :
    (t.author ≠ uid → deleteTweet eff uid tid db =
        (db, Except.error (.status 403 "Not authorized to delete this tweet"))) ∧
    (∀ db' r, deleteTweet eff uid tid db = (db', Except.ok r) →
       (∀ n ∈ db'.notifications, n.tweet ≠ some tid) ∧
       (t.isReply = true → t.isRetweet = false →
          ∀ pid, t.parentTweet = some pid → pid ≠ tid →
          ∀ p, findTweet pid db'.tweets = some p → tid ∉ p.replies)) := by
  have htid : t.id = tid := by
    have h := List.find?_some hfind
    simpa using h
  constructor
  · intro hauth
    unfold deleteTweet
    rw [hfind]
    dsimp only
    rw [if_pos hauth]
  · intro db' r h
    unfold deleteTweet at h
    rw [hfind] at h
    dsimp only at h
    split at h
    · simp at h
    · split at h
      · simp at h
      · simp only [Prod.mk.injEq, Except.ok.injEq] at h
        obtain ⟨h1, -⟩ := h
        subst h1
        constructor
        · intro n hn hsome
          have h2 := (List.mem_filter.mp hn).2
          rw [← htid] at hsome
          simp [hsome] at h2
        · intro hreply hrt pid hpar hne p hp
          simp only [hreply, hrt, hpar, if_true, Bool.false_eq_true, if_false] at hp
          have hdisj : ∀ x ∈ (updateTweet pid
              (fun q => { q with replies := q.replies.filter (fun y => y != t.id) })
              db.tweets),
              ((fun y => y.id == t.id) x) = true → (x.id == pid) = false := by
            intro x _ hx
            have hxid : x.id = t.id := by simpa using hx
            simp only [hxid, htid]
            simpa using Ne.symm hne
          rw [findTweet_deleteFirst_of_disjoint pid (fun y => y.id == t.id) _ hdisj]
            at hp
          have hupd := findTweet_updateTweet pid pid
            (fun q => { q with replies := q.replies.filter (fun y => y != t.id) })
            (fun _ hq => hq) db.tweets
          rw [if_pos rfl] at hupd
          rw [hupd] at hp
          cases hq : findTweet pid db.tweets with
          | none => rw [hq] at hp; simp at hp
          | some q =>
            rw [hq, Option.map_some', Option.some.injEq] at hp
            subst hp
            intro hmem
            have h3 := (List.mem_filter.mp hmem).2
            rw [← htid] at h3
            simp at h3

/-- witness for C6: bob (id 2), who is not the author, attempts to delete
alice's post on the concrete database -/
theorem deleteTweetAuthCascade_witness :
    ((exTweet.author ≠ 2 → deleteTweet effAll 2 10 exDB =
        (exDB, Except.error (.status 403 "Not authorized to delete this tweet"))) ∧
     (∀ db' r, deleteTweet effAll 2 10 exDB = (db', Except.ok r) →
        (∀ n ∈ db'.notifications, n.tweet ≠ some 10) ∧
        (exTweet.isReply = true → exTweet.isRetweet = false →
           ∀ pid, exTweet.parentTweet = some pid → pid ≠ 10 →
           ∀ p, findTweet pid db'.tweets = some p → 10 ∉ p.replies))) ∧
    exTweet.author ≠ 2 :=
  ⟨deleteTweetAuthCascade effAll exDB 2 10 exTweet rfl, by decide⟩

/-! ## C5: the retweet toggle cascade -/

theorem mem_updateBy_of_neg (p : α → Bool) (f : α → α) (l : List α) (x : α)
    (hx : x ∈ l) (hpx : p x = false) : x ∈ updateBy p f l := by
  induction l with
  | nil => simp at hx
  | cons a rest ih =>
    cases hpa : p a with
    | true =>
      rcases List.mem_cons.mp hx with h1 | h1
      · exfalso; rw [h1] at hpx; rw [hpx] at hpa; exact Bool.noConfusion hpa
      · have : x ∈ f a :: rest := List.mem_cons_of_mem _ h1
        simpa [updateBy, hpa] using this
    | false =>
      rcases List.mem_cons.mp hx with h1 | h1
      · simp [updateBy, hpa, h1]
      · simp [updateBy, hpa]
        exact Or.inr (by simpa using ih h1)

theorem findTweet_append_left (i : Nat) (l1 l2 : List TweetDoc) (x : TweetDoc)
    (h : findTweet i l1 = some x) : findTweet i (l1 ++ l2) = some x := by
  unfold findTweet at h ⊢
  rw [List.find?_append, h]
  rfl

theorem retweetTweet_add_spec (eff : Effects) (uid tid : Nat) (db : DB)
    (t : TweetDoc) (hfind : findTweet tid db.tweets = some t)
    (hmem : uid ∉ t.retweets) (hval : tweetTextError t.text = none)
    (heff : eff.notifOk = true) :
    ∃ (S T1 : TweetDoc) (db1 : DB) (r : RetweetResp),
      retweetTweet eff uid tid db = (db1, Except.ok r) ∧
      S.id = db.nextId ∧ S.isRetweet = true ∧ S.originalTweet = some t.id ∧
      S.author = uid ∧
      T1.id = t.id ∧ T1.retweets = t.retweets ++ [uid] ∧
      T1.text = jsTrim t.text ∧
      T1.isRetweet = t.isRetweet ∧ T1.originalTweet = t.originalTweet ∧
      T1.author = t.author ∧
      db1.tweets = updateTweet t.id (fun _ => T1) (db.tweets ++ [S]) ∧
      db1.nextId = db.nextId + 1 := by
  by_cases hauth : t.author = uid
  · refine ⟨preSave { id := db.nextId, text := t.text, author := uid,
                      isRetweet := true, originalTweet := some t.id },
      preSave { t with retweets := t.retweets ++ [uid] },
      { users := db.users,
        tweets := (updateTweet t.id
          (fun _ => preSave { t with retweets := t.retweets ++ [uid] })
          (db.tweets ++
            [preSave { id := db.nextId, text := t.text, author := uid,
                       isRetweet := true, originalTweet := some t.id }])),
        notifications := db.notifications, trending := db.trending,
        nextId := db.nextId + 1 },
      { message := "Tweet retweeted", retweets := (t.retweets ++ [uid]).length,
        isRetweeted := true },
      ?_, rfl, rfl, rfl, rfl, rfl, rfl, rfl, rfl, rfl, rfl, rfl, rfl⟩
    unfold retweetTweet
    rw [hfind]
    dsimp only
    rw [if_neg hmem]
    rw [insertTweet_of_valid { id := 0, author := uid, isRetweet := true,
                               originalTweet := some t.id, text := t.text }
      db hval]
    dsimp only
    rw [if_neg (fun h => h hauth)]
    dsimp only
    rw [saveTweet_of_valid { t with retweets := t.retweets ++ [uid] } _ hval]
  · refine ⟨preSave { id := db.nextId, text := t.text, author := uid,
                      isRetweet := true, originalTweet := some t.id },
      preSave { t with retweets := t.retweets ++ [uid] },
      { users := db.users,
        tweets := (updateTweet t.id
          (fun _ => preSave { t with retweets := t.retweets ++ [uid] })
          (db.tweets ++
            [preSave { id := db.nextId, text := t.text, author := uid,
                       isRetweet := true, originalTweet := some t.id }])),
        notifications := (db.notifications ++
          [{ recipient := t.author, sender := uid, type := .retweet,
             tweet := some t.id }]),
        trending := db.trending, nextId := db.nextId + 1 },
      { message := "Tweet retweeted", retweets := (t.retweets ++ [uid]).length,
        isRetweeted := true },
      ?_, rfl, rfl, rfl, rfl, rfl, rfl, rfl, rfl, rfl, rfl, rfl, rfl⟩
    unfold retweetTweet
    rw [hfind]
    dsimp only
    rw [if_neg hmem]
    rw [insertTweet_of_valid { id := 0, author := uid, isRetweet := true,
                               originalTweet := some t.id, text := t.text }
      db hval]
    dsimp only
    rw [if_pos hauth, insertNotification_of_ok _ _ _ heff]
    dsimp only
    rw [saveTweet_of_valid { t with retweets := t.retweets ++ [uid] } _ hval]

theorem retweetTweet_remove_spec (eff : Effects) (uid tid : Nat) (db : DB)
    (t : TweetDoc) (hfind : findTweet tid db.tweets = some t)
    (hmem : uid ∈ t.retweets) (hval : tweetTextError t.text = none) :
    ∃ (T1 : TweetDoc) (db1 : DB) (r : RetweetResp),
      retweetTweet eff uid tid db = (db1, Except.ok r) ∧
      T1.id = t.id ∧ T1.retweets = t.retweets.filter (fun x => x != uid) ∧
      T1.text = jsTrim t.text ∧
      T1.isRetweet = t.isRetweet ∧ T1.originalTweet = t.originalTweet ∧
      T1.author = t.author ∧
      db1.tweets = updateTweet t.id (fun _ => T1)
        (deleteFirst (isRetweetShell t.id uid) db.tweets) := by
  refine ⟨preSave { t with retweets := t.retweets.filter (fun x => x != uid) },
    { db with tweets := (updateTweet t.id
        (fun _ => preSave { t with retweets := t.retweets.filter (fun x => x != uid) })
        (deleteFirst (isRetweetShell t.id uid) db.tweets)) },
    { message := "Retweet undone",
      retweets := (t.retweets.filter (fun x => x != uid)).length,
      isRetweeted := false },
    ?_, rfl, rfl, rfl, rfl, rfl, rfl, rfl⟩
  unfold retweetTweet
  rw [hfind]
  dsimp only
  rw [if_pos hmem]
  rw [saveTweet_of_valid
    { t with retweets := t.retweets.filter (fun x => x != uid) } _ hval]

/-- C5. For an actor A and a stored post P with A not in `P.retweets` (no
pre-existing retweet-shell of P by A, fresh ids, well-formed text, healthy
collaborators): `retweetTweet(A,P)` succeeds, adds A to P's `retweets`, and
creates exactly one new Post — a shell with the fresh id, `isRetweet = true`,
`originalTweet = P`, `author = A`; calling `retweetTweet(A,P)` again succeeds,
removes A from P's `retweets`, and deletes exactly that shell post, returning
the collection to its original size with the shell id gone. -/
theorem retweetToggleCascade (eff : Effects) (heff : eff.notifOk = true)
    (db : DB) (A P : Nat) (t : TweetDoc)
    (hfind : findTweet P db.tweets = some t)
    (hmem : A ∉ t.retweets)
    (htext : storedTextOk t)
    (hshell : retweetShellCount P A db.tweets = 0)
    (hfresh : ∀ x ∈ db.tweets, x.id < db.nextId) :
    ∃ db1 r1,
      retweetTweet eff A P db = (db1, Except.ok r1) ∧
      (∃ t1, findTweet P db1.tweets = some t1 ∧ A ∈ t1.retweets) ∧
      retweetShellCount P A db1.tweets = 1 ∧
      db1.tweets.length = db.tweets.length + 1 ∧
      (∃ s, s ∈ db1.tweets ∧ s.id = db.nextId ∧ s.isRetweet = true ∧
        s.originalTweet = some P ∧ s.author = A) ∧
      ∃ db2 r2,
        retweetTweet eff A P db1 = (db2, Except.ok r2) ∧
        (∀ t2, findTweet P db2.tweets = some t2 → A ∉ t2.retweets) ∧
        retweetShellCount P A db2.tweets = 0 ∧
        db2.tweets.length = db.tweets.length ∧
        (∀ s ∈ db2.tweets, s.id ≠ db.nextId) := by
  obtain ⟨htrim, hvalid⟩ := htext
  have htid : t.id = P := by
    have h := List.find?_some hfind
    simpa using h
  have htmem : t ∈ db.tweets := List.mem_of_find?_eq_some hfind
  have hzero : ∀ x ∈ db.tweets, isRetweetShell P A x = false := by
    intro x hx
    have h := List.countP_eq_zero.mp hshell x hx
    simpa using h
  have hts : isRetweetShell P A t = false := hzero t htmem
  have htP : P < db.nextId := htid ▸ hfresh t htmem
  obtain ⟨S, T1, db1, r1, run1, hSid, hSrt, hSorig, hSauth, hT1id, hT1rts,
    hT1text, hT1rt, hT1orig, hT1auth, hdb1, -⟩ :=
    retweetTweet_add_spec eff A P db t hfind hmem hvalid heff
  have hqS : isRetweetShell P A S = true := by
    unfold isRetweetShell
    rw [hSrt, hSorig, hSauth, htid]
    simp
  have hqT1 : isRetweetShell P A T1 = false := by
    unfold isRetweetShell at hts ⊢
    rw [hT1rt, hT1orig, hT1auth]
    exact hts
  have hSne : (S.id == t.id) = false := by
    have h : S.id ≠ t.id := by rw [hSid, htid]; omega
    simpa using h
  have hfind1 : findTweet P db1.tweets = some T1 := by
    rw [hdb1, findTweet_updateTweet P t.id (fun _ => T1) (fun _ _ => hT1id)
      (db.tweets ++ [S]), if_pos htid,
      findTweet_append_left P db.tweets [S] t hfind, Option.map_some']
  have hmemT1 : A ∈ T1.retweets := by
    rw [hT1rts]
    exact List.mem_append_right _ (List.mem_singleton.mpr rfl)
  have hcong1 : ∀ x ∈ db.tweets ++ [S], (x.id == t.id) = true →
      isRetweetShell P A ((fun _ => T1) x) = isRetweetShell P A x := by
    intro x hx hxid
    rcases List.mem_append.mp hx with h1 | h1
    · rw [hqT1, hzero x h1]
    · exfalso
      rw [List.mem_singleton.mp h1] at hxid
      rw [hSne] at hxid
      exact Bool.noConfusion hxid
  have hcount1 : retweetShellCount P A db1.tweets = 1 := by
    unfold retweetShellCount
    rw [hdb1]
    unfold updateTweet
    rw [countP_updateBy_congr _ _ _ _ hcong1, List.countP_append]
    have h0 : db.tweets.countP (isRetweetShell P A) = 0 := hshell
    rw [h0]
    simp [List.countP_cons, hqS]
  have hlen1 : db1.tweets.length = db.tweets.length + 1 := by
    rw [hdb1]
    unfold updateTweet
    rw [length_updateBy, List.length_append]
    rfl
  have hSmem : S ∈ db1.tweets := by
    rw [hdb1]
    unfold updateTweet
    exact mem_updateBy_of_neg _ _ _ _
      (List.mem_append_right _ (List.mem_singleton.mpr rfl)) hSne
  have hmem1 : ∀ x ∈ db1.tweets, x ∈ db.tweets ∨ x = S ∨ x = T1 := by
    intro x hx
    rw [hdb1] at hx
    unfold updateTweet at hx
    rcases mem_updateBy _ _ _ _ hx with h1 | ⟨y, -, h2⟩
    · rcases List.mem_append.mp h1 with h2 | h2
      · exact Or.inl h2
      · exact Or.inr (Or.inl (List.mem_singleton.mp h2))
    · exact Or.inr (Or.inr h2)
  have hval1 : tweetTextError T1.text = none := by
    rw [hT1text, htrim]
    exact hvalid
  obtain ⟨T2, db2, r2, run2, hT2id, hT2rts, hT2text, hT2rt, hT2orig, hT2auth,
    hdb2⟩ := retweetTweet_remove_spec eff A P db1 T1 hfind1 hmemT1 hval1
  rw [hT1id, htid] at hdb2
  have hqT2 : isRetweetShell P A T2 = false := by
    unfold isRetweetShell at hqT1 ⊢
    rw [hT2rt, hT2orig, hT2auth]
    exact hqT1
  have hT2P : T2.id = P := by rw [hT2id, hT1id, htid]
  have hfind2 : ∀ t2, findTweet P db2.tweets = some t2 → A ∉ t2.retweets := by
    intro t2 h2
    rw [hdb2, findTweet_updateTweet P P (fun _ => T2) (fun _ _ => hT2P) _,
      if_pos rfl] at h2
    cases hy : findTweet P (deleteFirst (isRetweetShell P A) db1.tweets) with
    | none => rw [hy] at h2; simp at h2
    | some y =>
      rw [hy, Option.map_some', Option.some.injEq] at h2
      subst h2
      rw [hT2rts]
      exact not_mem_filter_bne A T1.retweets
  have hcong2 : ∀ x ∈ deleteFirst (isRetweetShell P A) db1.tweets,
      (x.id == P) = true →
      isRetweetShell P A ((fun _ => T2) x) = isRetweetShell P A x := by
    intro x hx hxid
    have hxdb1 : x ∈ db1.tweets := mem_deleteFirst _ _ _ hx
    rcases hmem1 x hxdb1 with h1 | h1 | h1
    · rw [hqT2, hzero x h1]
    · exfalso
      have hxP : x.id = P := by simpa using hxid
      rw [h1, hSid] at hxP
      omega
    · rw [h1, hqT2, hqT1]
  have hcount2 : retweetShellCount P A db2.tweets = 0 := by
    unfold retweetShellCount
    rw [hdb2]
    unfold updateTweet
    rw [countP_updateBy_congr _ _ _ _ hcong2, countP_deleteFirst]
    have h1 : db1.tweets.countP (isRetweetShell P A) = 1 := hcount1
    rw [h1]
  have hlen2 : db2.tweets.length = db.tweets.length := by
    have hpos : db1.tweets.countP (isRetweetShell P A) ≠ 0 := by
      have h1 : db1.tweets.countP (isRetweetShell P A) = 1 := hcount1
      omega
    have hld := length_deleteFirst_of_pos (isRetweetShell P A) db1.tweets hpos
    rw [hdb2]
    unfold updateTweet
    rw [length_updateBy]
    omega
  have hnid : ∀ s ∈ db2.tweets, s.id ≠ db.nextId := by
    intro s hs hid
    have hq0 : ∀ a ∈ db2.tweets, ¬ isRetweetShell P A a = true :=
      List.countP_eq_zero.mp hcount2
    have hs0 := hs
    rw [hdb2] at hs
    unfold updateTweet at hs
    rcases mem_updateBy _ _ _ _ hs with h1 | ⟨y, -, h2⟩
    · have hsdb1 := mem_deleteFirst _ _ _ h1
      rcases hmem1 s hsdb1 with h2 | h2 | h2
      · have := hfresh s h2
        omega
      · exact hq0 s hs0 (by rw [h2]; exact hqS)
      · rw [h2, hT1id, htid] at hid
        omega
    · rw [h2, hT2P] at hid
      omega
  exact ⟨db1, r1, run1, ⟨T1, hfind1, hmemT1⟩, hcount1, hlen1,
    ⟨S, hSmem, hSid, hSrt, htid ▸ hSorig, hSauth⟩,
    db2, r2, run2, hfind2, hcount2, hlen2, hnid⟩

/-- witness for C5: bob retweets and un-retweets alice's post on the concrete
database -/
theorem retweetToggleCascade_witness :
    effAll.notifOk = true ∧
    findTweet 10 exDB.tweets = some exTweet ∧
    (2 : Nat) ∉ exTweet.retweets ∧
    storedTextOk exTweet ∧
    retweetShellCount 10 2 exDB.tweets = 0 ∧
    (∀ x ∈ exDB.tweets, x.id < exDB.nextId) ∧
    (∃ db1 r1,
      retweetTweet effAll 2 10 exDB = (db1, Except.ok r1) ∧
      (∃ t1, findTweet 10 db1.tweets = some t1 ∧ 2 ∈ t1.retweets) ∧
      retweetShellCount 10 2 db1.tweets = 1 ∧
      db1.tweets.length = exDB.tweets.length + 1 ∧
      (∃ s, s ∈ db1.tweets ∧ s.id = exDB.nextId ∧ s.isRetweet = true ∧
        s.originalTweet = some 10 ∧ s.author = 2) ∧
      ∃ db2 r2,
        retweetTweet effAll 2 10 db1 = (db2, Except.ok r2) ∧
        (∀ t2, findTweet 10 db2.tweets = some t2 → 2 ∉ t2.retweets) ∧
        retweetShellCount 10 2 db2.tweets = 0 ∧
        db2.tweets.length = exDB.tweets.length ∧
        (∀ s ∈ db2.tweets, s.id ≠ exDB.nextId)) :=
  ⟨rfl, rfl, by decide, by decide, by decide, by decide,
    retweetToggleCascade effAll rfl exDB 2 10 exTweet rfl (by decide)
      (by decide) (by decide) (by decide)⟩

/-! ## C1 (amended): side-effect failures propagate, asymmetrically -/

/-- C1 (amended). A secondary side-effect failure is NOT caught locally: the
exception propagates through the handler's single try/catch and the caller
observes an error instead of the primary mutation's success. What has
committed when the error surfaces follows the handler's write order: in
`likeTweet` the notification is created before `tweet.save()`, so the like
does not commit and the state is unchanged; in `retweetTweet` the shell post
is created before the notification, so the shell persists while the
membership save is lost (the stored original still lacks the actor); in
`followUser` both follow edges are committed before the notification failure;
in `deleteTweet` a Cloudinary image-cleanup failure aborts before any
mutation, so nothing is deleted. -/
theorem sideEffectFailurePropagates (eff : Effects) (heff : eff.notifOk = false)
    (db : DB) (uid tid : Nat) (t : TweetDoc)
    (hfind : findTweet tid db.tweets = some t)
    (hauth : t.author ≠ uid) (hmemL : uid ∉ t.likes) (hmemR : uid ∉ t.retweets)
    (hval : tweetTextError t.text = none)
    (a b : Nat) (ua ub : UserDoc)
    (ha : findUser a db.users = some ua) (hb : findUser b db.users = some ub)
    (hab : ¬ a = b) (hnf : a ∉ ub.followers) :
    likeTweet eff uid tid db =
      (db, Except.error (.internal "Notification.create failed")) ∧
    (∃ dbR S, retweetTweet eff uid tid db =
        (dbR, Except.error (.internal "Notification.create failed")) ∧
      dbR.tweets = db.tweets ++ [S] ∧ S.isRetweet = true ∧
      S.originalTweet = some tid ∧ S.author = uid ∧
      findTweet tid dbR.tweets = some t) ∧
    (∃ db1, followUser eff a b db =
        (db1, Except.error (.internal "Notification.create failed")) ∧
      (∃ ua1, findUser a db1.users = some ua1 ∧ b ∈ ua1.following) ∧
      (∃ ub1, findUser b db1.users = some ub1 ∧ a ∈ ub1.followers)) ∧
    (∀ uidD tidD tD, findTweet tidD db.tweets = some tD → tD.author = uidD →
      tD.imageUrl.isSome = true → eff.cloudinaryOk = false →
      deleteTweet eff uidD tidD db =
        (db, Except.error (.internal "Cloudinary destroy failed"))) := by
  have htid : t.id = tid := by
    have h := List.find?_some hfind
    simpa using h
  have hf : ∀ u : UserDoc, u.id = b →
      (({ u with followers := u.followers ++ [a] } : UserDoc)).id = b :=
    fun _ hu => hu
  have hg : ∀ u : UserDoc, u.id = a →
      (({ u with following := u.following ++ [b] } : UserDoc)).id = a :=
    fun _ hu => hu
  have hFa : findUser a (updateUser b
      (fun u => { u with followers := u.followers ++ [a] }) db.users) =
      some ua := by
    rw [findUser_updateUser a b _ hf db.users, if_neg (fun h => hab h.symm), ha]
  refine ⟨?_, ?_, ?_, ?_⟩
  · unfold likeTweet
    rw [hfind]
    dsimp only
    rw [if_neg hmemL, if_pos hauth, insertNotification_of_down _ _ _ heff]
  · refine ⟨{ db with
                tweets := (db.tweets ++
                  [preSave { id := db.nextId, text := t.text, author := uid,
                             isRetweet := true, originalTweet := some t.id }]),
                nextId := db.nextId + 1 },
      preSave { id := db.nextId, text := t.text, author := uid,
                isRetweet := true, originalTweet := some t.id },
      ?_, rfl, rfl, ?_, rfl, ?_⟩
    · unfold retweetTweet
      rw [hfind]
      dsimp only
      rw [if_neg hmemR]
      rw [insertTweet_of_valid { id := 0, author := uid, isRetweet := true,
                                 originalTweet := some t.id, text := t.text }
        db hval]
      dsimp only
      rw [if_pos hauth, insertNotification_of_down _ _ _ heff]
    · show some t.id = some tid
      rw [htid]
    · exact findTweet_append_left tid db.tweets _ t hfind
  · refine ⟨{ db with users := (updateUser a
        (fun u => { u with following := u.following ++ [b] })
        (updateUser b (fun u => { u with followers := u.followers ++ [a] })
          db.users)) }, ?_, ?_, ?_⟩
    · unfold followUser
      rw [hb]
      dsimp only
      rw [if_neg hab, if_neg hnf]
      rw [hFa]
      dsimp only
      rw [insertNotification_of_down _ _ _ heff]
    · have h4 := findUser_updateUser a a
        (fun u => { u with following := u.following ++ [b] }) hg
        (updateUser b (fun u => { u with followers := u.followers ++ [a] })
          db.users)
      rw [if_pos rfl] at h4
      dsimp only
      simp only [h4, hFa, Option.map_some', Option.some.injEq]
      exact ⟨_, rfl, by simp⟩
    · have h5 := findUser_updateUser b a
        (fun u => { u with following := u.following ++ [b] }) hg
        (updateUser b (fun u => { u with followers := u.followers ++ [a] })
          db.users)
      rw [if_neg hab] at h5
      have h6 := findUser_updateUser b b
        (fun u => { u with followers := u.followers ++ [a] }) hf db.users
      rw [if_pos rfl] at h6
      dsimp only
      simp only [h5, h6, hb, Option.map_some', Option.some.injEq]
      exact ⟨_, rfl, by simp⟩
  · intro uidD tidD tD hfD hown htimg hcl
    unfold deleteTweet
    rw [hfD]
    dsimp only
    rw [if_neg (fun h => h hown)]
    have hc : (tD.imageUrl.isSome && !eff.cloudinaryOk) = true := by
      rw [htimg, hcl]
      rfl
    rw [hc, if_pos rfl]

/-- witness for the amended C1: every collaborator is down; bob's like of
alice's post fails with nothing committed, his retweet fails with the shell
committed but the membership lost, alice's follow of bob fails after both
edges committed, and alice's delete of her image post fails before any
mutation -/
theorem sideEffectFailurePropagates_witness :
    effDown.notifOk = false ∧
    exTweet.author ≠ 2 ∧ (2 : Nat) ∉ exTweet.likes ∧
    (2 : Nat) ∉ exTweet.retweets ∧ tweetTextError exTweet.text = none ∧
    ((likeTweet effDown 2 10 exDB2 =
        (exDB2, Except.error (.internal "Notification.create failed"))) ∧
     (∃ dbR S, retweetTweet effDown 2 10 exDB2 =
          (dbR, Except.error (.internal "Notification.create failed")) ∧
        dbR.tweets = exDB2.tweets ++ [S] ∧ S.isRetweet = true ∧
        S.originalTweet = some 10 ∧ S.author = 2 ∧
        findTweet 10 dbR.tweets = some exTweet) ∧
     (∃ db1, followUser effDown 1 2 exDB2 =
          (db1, Except.error (.internal "Notification.create failed")) ∧
        (∃ ua1, findUser 1 db1.users = some ua1 ∧ 2 ∈ ua1.following) ∧
        (∃ ub1, findUser 2 db1.users = some ub1 ∧ 1 ∈ ub1.followers)) ∧
     (∀ uidD tidD tD, findTweet tidD exDB2.tweets = some tD →
        tD.author = uidD → tD.imageUrl.isSome = true →
        effDown.cloudinaryOk = false →
        deleteTweet effDown uidD tidD exDB2 =
          (exDB2, Except.error (.internal "Cloudinary destroy failed")))) ∧
    deleteTweet effDown 1 20 exDB2 =
      (exDB2, Except.error (.internal "Cloudinary destroy failed")) :=
  ⟨rfl, by decide, by decide, by decide, by decide,
    sideEffectFailurePropagates effDown rfl exDB2 2 10 exTweet rfl
      (by decide) (by decide) (by decide) (by decide) 1 2
      { id := 1, username := "alice" } { id := 2, username := "bob" }
      rfl rfl (by decide) (by decide),
    (sideEffectFailurePropagates effDown rfl exDB2 2 10 exTweet rfl
      (by decide) (by decide) (by decide) (by decide) 1 2
      { id := 1, username := "alice" } { id := 2, username := "bob" }
      rfl rfl (by decide) (by decide)).2.2.2 1 20 exImageTweet rfl rfl rfl rfl⟩

end Chirp
